import Mathlib

/-!
Verification of the routing / combined-retrieval decision engine of the
Dynamic Knowledge RAG Engine (FastAPI + Pinecone + Gemini backend).

Shallow embedding conventions:
* Python strings are Lean `String`s; similarity scores are `ℚ` (the code only
  compares them against a fixed threshold, so exact rationals model the
  comparisons faithfully).
* Calls to external collaborators (Pinecone, DuckDuckGo) are recorded as
  `ExtCall` values; outcomes of fallible external calls are passed in as
  `Except`/`Bool` parameters so that the embedded control flow mirrors the
  `try/except` structure of the source.
-/

/-- Typed application error surfaced to the request layer
(`exceptions.AppException`). -/
structure AppException where
  status_code : Nat
  detail : String
deriving DecidableEq

/-- Record of a call to an external retrieval collaborator:
either a Pinecone vector query (with its `top_k` and optional session
metadata filter) or a DuckDuckGo web search. -/
inductive ExtCall where
  | pinecone (top_k : Nat) (filter_session : Option String)
  | web
deriving DecidableEq

/-- Request shape built by `db_manager.search_vectors`: the session filter is
attached only when `session_id` is truthy (Python treats `None` and `""` as
falsy in `if session_id:`). -/
def search_vectors_request (top_k : Nat) (session_id : Option String) : ExtCall :=
  ExtCall.pinecone top_k
    (match session_id with
     | some s => if s = "" then none else some s
     | none => none)

/-- Cosine similarity threshold for a "relevant doc" (`app.py`). -/
def RAG_THRESHOLD : ℚ := 6 / 10

/-- The Pinecone probe issued by `app.check_docs_relevant`:
`search_vectors(q_emb, top_k=3, session_id=session_id)`. -/
def check_docs_relevant_search (session_id : String) : ExtCall :=
  search_vectors_request 3 (some session_id)

/-- Verdict computation of `app.check_docs_relevant`, as a function of the
outcome of the embed-plus-search step: any raised exception maps to
`(False, False)`; an empty match list maps to `(False, False)`; otherwise the
result is `(True, top_score >= RAG_THRESHOLD)` where `top_score` is the score
of the first (best) match. -/
def check_docs_relevant (search_outcome : Except Unit (List ℚ)) : Bool × Bool :=
  match search_outcome with
  | .error _ => (false, false)
  | .ok [] => (false, false)
  | .ok (top_score :: _) => (true, decide (RAG_THRESHOLD ≤ top_score))

/-- Python's `str.upper()` on the character sequence of a string (the route
labels handled here are ASCII). -/
def py_upper (s : String) : String :=
  String.mk (s.data.map Char.toUpper)

/-- `app.decide_combined_route`: merges the base route label with the document
relevance verdict and the web permission flag into the final route label. -/
def decide_combined_route (base_route : String) (has_documents docs_relevant web_allowed : Bool) :
    String :=
  let base := py_upper base_route
  if has_documents && docs_relevant then
    if base == "WEB" && web_allowed then "WEB+RAG"
    else if base == "DIRECT" then "DIRECT+RAG"
    else "RAG"
  else if web_allowed then
    if base == "WEB" || base == "RAG" then "DIRECT+WEB"
    else if base == "DIRECT" then "DIRECT+WEB"
    else "DIRECT+WEB"
  else "DIRECT"

/-- The decision table stated by the spec for the Route Combiner, transcribed
row by row with first-matching-row-wins semantics (for comparison with the
source function `decide_combined_route`). -/
def combine_spec_table (base : String) (has_documents is_relevant web_allowed : Bool) : String :=
  if has_documents && is_relevant && (base == "WEB") && web_allowed then "WEB+RAG"
  else if has_documents && is_relevant && (base == "DIRECT") then "DIRECT+RAG"
  else if has_documents && is_relevant then "RAG"
  else if web_allowed then "DIRECT+WEB"
  else "DIRECT"

/-- One retrieved item of `retrieval.RetrievalResult.contexts`:
`{"text": ..., "score": ...}`. -/
structure ContextItem where
  text : String
  score : ℚ
deriving DecidableEq

/-- `retrieval.RetrievalResult`: normalized context list plus source labels. -/
structure RetrievalResult where
  contexts : List ContextItem
  sources : List String
deriving DecidableEq

/-- A match returned by `db_manager.search_vectors`: chunk text, similarity
score, and the source label taken from the stored `filename` metadata
(absent metadata surfaces as `none`). -/
structure DocMatch where
  text : String
  score : ℚ
  source : Option String
deriving DecidableEq

/-- A DuckDuckGo hit as consumed by `retrieval._retrieve_from_web`. -/
structure WebHit where
  body : String
  title : String
deriving DecidableEq

/-- Source label computed in `retrieval._retrieve_from_pinecone`:
`doc.get("source") or doc.get("filename", "unknown")` — a missing or falsy
(empty) source falls back to `"unknown"` since the match dicts built by
`search_vectors` carry no `"filename"` key. -/
def doc_source_label (m : DocMatch) : String :=
  match m.source with
  | some s => if s = "" then "unknown" else s
  | none => "unknown"

/-- `retrieval._retrieve_from_pinecone`: embeds the query, then calls
`search_vectors(query_vector, top_k=5)` — with no session filter — and folds
the matches into a `RetrievalResult`. The whole body sits in one `try`:
an embedding failure (`embed_ok = false`) aborts before the search, and a
search failure yields the empty result; either way no exception escapes. -/
def retrieve_from_pinecone (embed_ok : Bool) (search_outcome : Except Unit (List DocMatch)) :
    RetrievalResult × List ExtCall :=
  if embed_ok then
    match search_outcome with
    | .error _ => (⟨[], []⟩, [search_vectors_request 5 none])
    | .ok docs =>
        (⟨docs.map (fun d => ⟨d.text, d.score⟩), docs.map doc_source_label⟩,
         [search_vectors_request 5 none])
  else (⟨[], []⟩, [])

/-- `retrieval._retrieve_from_web`: queries DuckDuckGo and folds the hits into
a `RetrievalResult` with a constant 1.0 baseline score; a search failure is
swallowed and yields the empty result. -/
def retrieve_from_web (web_outcome : Except Unit (List WebHit)) :
    RetrievalResult × List ExtCall :=
  match web_outcome with
  | .error _ => (⟨[], []⟩, [ExtCall.web])
  | .ok hits =>
      (⟨hits.map (fun h => ⟨h.body, 1⟩), hits.map (fun h => h.title)⟩, [ExtCall.web])

/-- `retrieval.retrieve_context`: dispatches on the route label by exact string
comparison — `"DIRECT"` returns the empty result, `"RAG"` searches Pinecone,
`"WEB"` searches DuckDuckGo only when `web_search_allowed`, and any other
label falls through to the unknown-route branch returning the empty result
with no external call. -/
def retrieve_context (decision : String) (web_search_allowed : Bool)
    (embed_ok : Bool) (search_outcome : Except Unit (List DocMatch))
    (web_outcome : Except Unit (List WebHit)) : RetrievalResult × List ExtCall :=
  if decision == "DIRECT" then (⟨[], []⟩, [])
  else if decision == "RAG" then retrieve_from_pinecone embed_ok search_outcome
  else if decision == "WEB" then
    if web_search_allowed then retrieve_from_web web_outcome
    else (⟨[], []⟩, [])
  else (⟨[], []⟩, [])

/-- The three prompt template families of `generation.py`. -/
inductive PromptTemplate where
  | rag
  | web
  | direct
deriving DecidableEq

/-- Template dispatch inside `generation.generate_final_response`:
`if decision == "RAG"` use the document-grounded template,
`elif decision == "WEB"` use the web-grounded template, `else` the no-context
DIRECT template — exact string comparison on the route label. -/
def generate_final_response_template (decision : String) : PromptTemplate :=
  if decision == "RAG" then .rag
  else if decision == "WEB" then .web
  else .direct

/-- Outcome of the external Gemini classification call inside
`router.route_query`: a successful free-text reply, a `GoogleAPIError`
carrying an optional HTTP status code and status name, or any other raised
exception. -/
inductive GeminiOutcome where
  | success (text : String)
  | apiError (http_code : Option Nat) (status_name : String)
  | otherError
deriving DecidableEq

/-- The HTTP-status-to-message mapping shared by `router.route_query`'s
`GoogleAPIError` handler. -/
def gemini_error_message (http_status : Nat) (status_name : String) : String :=
  if http_status = 403 then
    "The AI service is not authorized. Please check the Gemini API key and permissions."
  else if http_status = 404 then
    "The AI service could not find a required resource. Please try again later."
  else if http_status = 429 then
    "Gemini free-tier daily or per-minute limit has been reached. Please try again later."
  else if http_status = 500 then
    "The AI service encountered an internal error. Please retry after some time."
  else if http_status = 503 then
    "The AI service is temporarily unavailable. Please retry after some time."
  else if http_status = 504 then
    "The AI service timed out while processing this request. Try a shorter question."
  else
    s!"The AI service returned an unexpected error ({status_name}). Please try again."

/-- `router._normalize_decision`: strip and uppercase, then prefix-match
against the three route labels with `DIRECT` as the default. -/
def normalize_decision (decision : String) : String :=
  let d := py_upper decision.trim
  if d.startsWith "RAG" then "RAG"
  else if d.startsWith "WEB" then "WEB"
  else "DIRECT"

/-- Failure-handling core of `router.route_query`, as a function of the
Gemini call outcome and the session's document-availability flag:
a successful reply is stripped, uppercased and normalized; a `GoogleAPIError`
raises `AppException(status_code=http_status, detail=msg)` with the mapped
message (HTTP status defaulting to 500 when the error carries no code); any
other exception is swallowed and the function silently defaults to `"RAG"`
when the session has documents, else `"DIRECT"`. -/
def route_query (outcome : GeminiOutcome) (has_documents : Bool) : Except AppException String :=
  match outcome with
  | .success text => .ok (normalize_decision (py_upper text.trim))
  | .apiError http_code status_name =>
      let http_status := http_code.getD 500
      .error ⟨http_status, gemini_error_message http_status status_name⟩
  | .otherError => .ok (if has_documents then "RAG" else "DIRECT")

/-- Modelled from the spec: the definition of `format_context` is missing from
the source tree — `components/generation.py` imports it from
`components/retrieval.py`, which does not define it. Per the spec, context is
token-budget-truncated with a character-based approximation before inclusion
in the prompt. This constant is the character budget. -/
def MAX_CONTEXT_CHARS : Nat := 8000

/-- Modelled from the spec: the marker appended when context is truncated. -/
def TRUNCATION_MARKER : String := "... [truncated]"

/-- Modelled from the spec: the truncation step of `format_context` — a string
within budget passes through unchanged; an oversized string is cut from the
end at the fixed character budget and the truncation marker is appended. -/
def truncate_to_budget (s : String) : String :=
  if s.data.length ≤ MAX_CONTEXT_CHARS then s
  else String.mk (s.data.take MAX_CONTEXT_CHARS) ++ TRUNCATION_MARKER

/-- Modelled from the spec: `format_context` joins the context snippets and
applies the budget truncation. -/
def format_context (context : List String) : String :=
  truncate_to_budget (String.intercalate "\n\n" context)

/-- `db_manager.delete_vectors_by_session`: `index = get_index()` sits outside
the `try` block, so a `get_index` failure propagates to the caller; a failure
of `index.delete` itself is caught and logged inside the `try`, so
`delete_ok` does not affect the caller-visible outcome. -/
def delete_vectors_by_session (get_index_ok delete_ok : Bool) : Except Unit Unit :=
  if get_index_ok then
    Except.ok ()
  else Except.error ()

/-- `db_manager.list_s3_keys_for_session`: `index = get_index()` sits outside
the `try` block, so a `get_index` failure propagates to the caller; a failure
of the broad metadata query is caught and mapped to the empty key list. -/
def list_s3_keys_for_session (get_index_ok query_ok : Bool) (session_keys : List String) :
    Except Unit (List String) :=
  if get_index_ok then
    if query_ok then Except.ok session_keys else Except.ok []
  else Except.error ()

/-- Observable outcome of the `/api/cleanup` handler (`app.cleanup_session`):
whether `delete_vectors_by_session` and `delete_s3_objects` were invoked, and
the response. Any exception reaching the handler's `except` clause is mapped
to `AppException(500, "Cleanup failed unexpectedly.")` and aborts the
remaining steps. -/
structure CleanupOutcome where
  attempted_vector_delete : Bool
  attempted_s3_delete : Bool
  response : Except AppException String

/-- `app.cleanup_session` as a function of the outcomes of its external steps.
Control flow of the source: `request.file_keys or list_s3_keys_for_session`
resolves the keys (the listing runs only when the request carries no keys, and
its `get_index` failure aborts before either deletion); then
`delete_vectors_by_session` runs — its `get_index` failure aborts before S3
deletion, while an `index.delete` failure is swallowed; then
`delete_s3_objects` runs — a no-op on empty keys, and its failure on nonempty
keys is mapped to the 500 response after both steps were attempted. -/
def cleanup_session (request_file_keys : List String)
    (list_get_index_ok list_query_ok : Bool) (session_keys : List String)
    (vec_get_index_ok vec_delete_ok : Bool) (s3_delete_ok : Bool) : CleanupOutcome :=
  let keys_step : Except Unit (List String) :=
    if request_file_keys.isEmpty then
      list_s3_keys_for_session list_get_index_ok list_query_ok session_keys
    else Except.ok request_file_keys
  match keys_step with
  | .error _ => ⟨false, false, .error ⟨500, "Cleanup failed unexpectedly."⟩⟩
  | .ok file_keys =>
      match delete_vectors_by_session vec_get_index_ok vec_delete_ok with
      | .error _ => ⟨true, false, .error ⟨500, "Cleanup failed unexpectedly."⟩⟩
      | .ok _ =>
          if file_keys.isEmpty then ⟨true, true, .ok "cleaned"⟩
          else if s3_delete_ok then ⟨true, true, .ok "cleaned"⟩
          else ⟨true, true, .error ⟨500, "Cleanup failed unexpectedly."⟩⟩

/-- A concrete oversized context string used to instantiate the truncation
theorem. -/
def big_context : String := String.mk (List.replicate (MAX_CONTEXT_CHARS + 1) 'a')

/-- C1: for every base route in {RAG, WEB, DIRECT} and every boolean triple
(has_documents, is_relevant, web_allowed), `decide_combined_route` agrees with
the spec's decision table (first matching row wins): WEB+RAG when documents
are relevant, base is WEB and web is allowed; DIRECT+RAG when documents are
relevant and base is DIRECT; RAG when documents are relevant otherwise;
DIRECT+WEB when documents are absent or irrelevant and web is allowed; DIRECT
otherwise. Being a Lean function of exactly these inputs, it is pure, total
and deterministic. -/
theorem combiner_decision_table :
    (∀ hd rel wa : Bool,
        decide_combined_route "RAG" hd rel wa = combine_spec_table "RAG" hd rel wa) ∧
    (∀ hd rel wa : Bool,
        decide_combined_route "WEB" hd rel wa = combine_spec_table "WEB" hd rel wa) ∧
    (∀ hd rel wa : Bool,
        decide_combined_route "DIRECT" hd rel wa = combine_spec_table "DIRECT" hd rel wa) := by
  refine ⟨?_, ?_, ?_⟩ <;> decide

/-- C10: for every input — any base-route string and any combination of the
three booleans — `decide_combined_route` never returns the plain label "WEB";
its range is exactly the five labels RAG, WEB+RAG, DIRECT+RAG, DIRECT+WEB,
DIRECT (each is attained at some input), so the sixth advertised ComposedRoute
label "WEB" is unreachable. -/
theorem combiner_range_no_plain_web :
    (∀ (base : String) (hd rel wa : Bool),
        decide_combined_route base hd rel wa ∈
          (["RAG", "WEB+RAG", "DIRECT+RAG", "DIRECT+WEB", "DIRECT"] : List String)) ∧
    (∀ (base : String) (hd rel wa : Bool), decide_combined_route base hd rel wa ≠ "WEB") ∧
    (decide_combined_route "RAG" true true true = "RAG") ∧
    (decide_combined_route "WEB" true true true = "WEB+RAG") ∧
    (decide_combined_route "DIRECT" true true true = "DIRECT+RAG") ∧
    (decide_combined_route "RAG" false false true = "DIRECT+WEB") ∧
    (decide_combined_route "RAG" false false false = "DIRECT") := by
  refine ⟨?_, ?_, by decide, by decide, by decide, by decide, by decide⟩
  · intro base hd rel wa
    simp only [decide_combined_route]
    split_ifs <;> decide
  · intro base hd rel wa
    simp only [decide_combined_route]
    split_ifs <;> decide

/-- C2: web-permission hard gate. With `web_allowed = false` the combiner's
result is always one of RAG, DIRECT+RAG, DIRECT (never a label containing
WEB), for every base-route string and every document verdict; and with
`web_search_allowed = false` the context assembler never issues a web search
call, whatever route label it receives and whatever the backends would
return. -/
theorem web_permission_hard_gate :
    (∀ (base : String) (hd rel : Bool),
        decide_combined_route base hd rel false ∈
          (["RAG", "DIRECT+RAG", "DIRECT"] : List String)) ∧
    (∀ (decision : String) (embed_ok : Bool)
        (search_outcome : Except Unit (List DocMatch))
        (web_outcome : Except Unit (List WebHit)),
        ExtCall.web ∉
          (retrieve_context decision false embed_ok search_outcome web_outcome).2) := by
  constructor
  · intro base hd rel
    simp only [decide_combined_route]
    split_ifs <;> first | decide | simp_all
  · intro decision embed_ok search_outcome web_outcome
    simp only [retrieve_context]
    split_ifs <;>
      first
        | simp
        | (cases embed_ok <;> cases search_outcome <;>
            simp [retrieve_from_pinecone, search_vectors_request])
        | simp_all

/-- C3 (counterexample): a failure of the model call that is not a
`GoogleAPIError` — any other raised exception — does not produce a typed
error: with documents present, `route_query` silently defaults to the `"RAG"`
route instead of raising an `AppException`, refuting the claim that every
kind of exception the model call can raise is surfaced as a typed error. -/
theorem route_query_other_exception_defaults :
    route_query GeminiOutcome.otherError true = Except.ok "RAG" := rfl

/-- C3 (amended): for every `GoogleAPIError` raised by the model call,
`route_query` raises an `AppException` whose status code is the error's HTTP
code (500 when the error carries none) and whose detail is the human-readable
category-specific message — authorization (403), not-found (404), rate limit
(429), internal error (500), unavailable (503), timeout (504) — while any
non-`GoogleAPIError` exception is swallowed and silently defaults to `"RAG"`
when the session has documents and `"DIRECT"` otherwise. -/
theorem route_query_failure_policy_amended :
    (∀ (c : Nat) (name : String) (hd : Bool),
        route_query (GeminiOutcome.apiError (some c) name) hd =
          Except.error ⟨c, gemini_error_message c name⟩) ∧
    (∀ (name : String) (hd : Bool),
        route_query (GeminiOutcome.apiError none name) hd =
          Except.error ⟨500, gemini_error_message 500 name⟩) ∧
    (∀ name : String, gemini_error_message 403 name =
      "The AI service is not authorized. Please check the Gemini API key and permissions.") ∧
    (∀ name : String, gemini_error_message 404 name =
      "The AI service could not find a required resource. Please try again later.") ∧
    (∀ name : String, gemini_error_message 429 name =
      "Gemini free-tier daily or per-minute limit has been reached. Please try again later.") ∧
    (∀ name : String, gemini_error_message 500 name =
      "The AI service encountered an internal error. Please retry after some time.") ∧
    (∀ name : String, gemini_error_message 503 name =
      "The AI service is temporarily unavailable. Please retry after some time.") ∧
    (∀ name : String, gemini_error_message 504 name =
      "The AI service timed out while processing this request. Try a shorter question.") ∧
    (∀ hd : Bool, route_query GeminiOutcome.otherError hd =
      Except.ok (if hd then "RAG" else "DIRECT")) := by
  refine ⟨fun c name hd => rfl, fun name hd => rfl, fun name => rfl, fun name => rfl,
    fun name => rfl, fun name => rfl, fun name => rfl, fun name => rfl, fun hd => rfl⟩

/-- C4: the relevance probe issues a top-3 similarity search filtered to the
session, returns `(false, false)` on a backend/search error or an empty match
list, returns `(true, top_score >= 0.6)` otherwise, and in every returned
verdict `is_relevant` implies `has_documents`. -/
theorem check_docs_relevant_postcondition :
    (∀ session_id : String, session_id ≠ "" →
        check_docs_relevant_search session_id = ExtCall.pinecone 3 (some session_id)) ∧
    (check_docs_relevant (Except.error ()) = (false, false)) ∧
    (check_docs_relevant (Except.ok []) = (false, false)) ∧
    (∀ (top_score : ℚ) (rest : List ℚ),
        check_docs_relevant (Except.ok (top_score :: rest)) =
          (true, decide (RAG_THRESHOLD ≤ top_score))) ∧
    (∀ search_outcome : Except Unit (List ℚ),
        (check_docs_relevant search_outcome).2 = true →
          (check_docs_relevant search_outcome).1 = true) := by
  refine ⟨?_, rfl, rfl, fun top_score rest => rfl, ?_⟩
  · intro session_id h
    simp [check_docs_relevant_search, search_vectors_request, h]
  · intro search_outcome h
    cases search_outcome with
    | error u => simp [check_docs_relevant] at h
    | ok l =>
        cases l with
        | nil => simp [check_docs_relevant] at h
        | cons top_score rest => rfl

/-- C4 (witness): instantiation of `check_docs_relevant_postcondition` at the
concrete session id "session-1" and at a search outcome with top score 1. -/
theorem check_docs_relevant_postcondition_witness :
    check_docs_relevant_search "session-1" = ExtCall.pinecone 3 (some "session-1") ∧
    (check_docs_relevant (Except.ok [(1 : ℚ)])).1 = true :=
  ⟨check_docs_relevant_postcondition.1 "session-1" (by decide),
   check_docs_relevant_postcondition.2.2.2.2 (Except.ok [(1 : ℚ)])
     (by norm_num [check_docs_relevant, RAG_THRESHOLD])⟩

/-- C5: the synthesizer's template dispatch is an exact string match on the
route label, not a presence test: every composed label — including
"WEB+RAG" and "DIRECT+RAG", which contain RAG — falls through to the
no-context DIRECT template; only the exact labels "RAG" and "WEB" select the
grounded templates. Evaluates the dispatch at the failing inputs. -/
theorem generation_template_exact_match_bug :
    generate_final_response_template "WEB+RAG" = PromptTemplate.direct ∧
    generate_final_response_template "DIRECT+RAG" = PromptTemplate.direct ∧
    generate_final_response_template "DIRECT+WEB" = PromptTemplate.direct ∧
    generate_final_response_template "RAG" = PromptTemplate.rag ∧
    generate_final_response_template "WEB" = PromptTemplate.web :=
  ⟨rfl, rfl, rfl, rfl, rfl⟩

/-- C6: evaluation of the context assembler at the failing inputs. For the
composed route "WEB+RAG" — which contains RAG — the assembler performs no
document retrieval at all (unknown-route fallback: empty result, no external
call), and for the exact route "RAG" the Pinecone search it issues carries
top_k = 5 but no session filter, contradicting the claimed session-filtered
fetch. -/
theorem retrieval_rag_route_session_bug :
    (retrieve_context "WEB+RAG" true true
        (Except.ok [⟨"chunk text", 9/10, some "report.pdf"⟩])
        (Except.ok [⟨"web body", "web title"⟩]) =
      (⟨[], []⟩, [])) ∧
    ((retrieve_context "RAG" true true (Except.ok []) (Except.ok [])).2 =
      [ExtCall.pinecone 5 none]) :=
  ⟨rfl, rfl⟩

/-- C7: evaluation of the context assembler at the failing input. For the
composed route "WEB+RAG", with both the document backend and the web backend
returning nonempty results, the assembler fetches neither contribution and
returns the empty context sequence, contradicting the claimed
fetch-both-and-concatenate behavior. -/
theorem retrieval_combined_route_bug :
    (retrieve_context "WEB+RAG" true true
        (Except.ok [⟨"doc snippet", 8/10, some "notes.pdf"⟩])
        (Except.ok [⟨"ddg body", "ddg title"⟩])).1.contexts = [] ∧
    (retrieve_context "WEB+RAG" true true
        (Except.ok [⟨"doc snippet", 8/10, some "notes.pdf"⟩])
        (Except.ok [⟨"ddg body", "ddg title"⟩])).2 = [] :=
  ⟨rfl, rfl⟩

/-- C8 (counterexample): with explicit file keys, when `index.delete` inside
vector deletion fails (its error swallowed by `delete_vectors_by_session`'s
`try`) and S3 deletion succeeds, the cleanup handler still returns the success
response "cleaned" — a failed cleanup observable as success, refuting the
claim. -/
theorem cleanup_vector_failure_reports_success :
    cleanup_session ["uploads/a.pdf"] true true [] true false true =
      ⟨true, true, Except.ok "cleaned"⟩ := rfl

/-- C8 (amended): the handler attempts both deletions only on some failure
paths. A `get_index` failure inside `delete_vectors_by_session` aborts the
handler with the generic 500 failure before S3 deletion is attempted, and a
`get_index` failure during key listing (requests without explicit keys)
aborts before either deletion; when vector deletion is reached and only
`index.delete` fails, that failure is swallowed, S3 deletion is still
attempted, and the endpoint reports "cleaned" whenever S3 deletion succeeds —
even after the swallowed vector failure — while an S3 deletion failure on
nonempty keys yields the 500 failure after both steps were attempted. -/
theorem cleanup_session_error_paths_amended :
    (∀ (k : String) (ks : List String) (lgi lq : Bool) (sk : List String)
        (vd so : Bool),
        cleanup_session (k :: ks) lgi lq sk false vd so =
          ⟨true, false, Except.error ⟨500, "Cleanup failed unexpectedly."⟩⟩) ∧
    (∀ (lq : Bool) (sk : List String) (vgi vd so : Bool),
        cleanup_session [] false lq sk vgi vd so =
          ⟨false, false, Except.error ⟨500, "Cleanup failed unexpectedly."⟩⟩) ∧
    (∀ (k : String) (ks : List String) (lgi lq : Bool) (sk : List String)
        (vd : Bool),
        cleanup_session (k :: ks) lgi lq sk true vd true =
          ⟨true, true, Except.ok "cleaned"⟩) ∧
    (∀ (k : String) (ks : List String) (lgi lq : Bool) (sk : List String)
        (vd : Bool),
        cleanup_session (k :: ks) lgi lq sk true vd false =
          ⟨true, true, Except.error ⟨500, "Cleanup failed unexpectedly."⟩⟩) :=
  ⟨fun k ks lgi lq sk vd so => rfl, fun lq sk vgi vd so => rfl,
   fun k ks lgi lq sk vd => rfl, fun k ks lgi lq sk vd => rfl⟩

/-- C9: `format_context` joins the context snippets and applies the budget
truncation; for every input exceeding the character budget the truncation
cuts from the end at the fixed budget boundary and appends the truncation
marker, and — being a pure function — formatting the same oversized input
twice produces byte-identical output. -/
theorem format_context_truncation_stable :
    (∀ context : List String,
        format_context context = truncate_to_budget (String.intercalate "\n\n" context)) ∧
    (∀ s : String, MAX_CONTEXT_CHARS < s.data.length →
        truncate_to_budget s =
          String.mk (s.data.take MAX_CONTEXT_CHARS) ++ TRUNCATION_MARKER ∧
        truncate_to_budget s = truncate_to_budget s) := by
  refine ⟨fun context => rfl, ?_⟩
  intro s h
  refine ⟨?_, rfl⟩
  unfold truncate_to_budget
  rw [if_neg (not_le.mpr h)]

/-- C9 (witness): instantiation of `format_context_truncation_stable` at a
concrete 8001-character context string. -/
theorem format_context_truncation_stable_witness :
    MAX_CONTEXT_CHARS < big_context.data.length ∧
    (truncate_to_budget big_context =
        String.mk (big_context.data.take MAX_CONTEXT_CHARS) ++ TRUNCATION_MARKER ∧
      truncate_to_budget big_context = truncate_to_budget big_context) := by
  have h : MAX_CONTEXT_CHARS < big_context.data.length := by
    show MAX_CONTEXT_CHARS < (List.replicate (MAX_CONTEXT_CHARS + 1) 'a').length
    rw [List.length_replicate]
    omega
  exact ⟨h, format_context_truncation_stable.2 big_context h⟩
